import Mathlib

/-!
Shallow embedding of
`packages/edit-site/src/components/page-templates-template-parts/index.js`
(the templates / template-parts admin list screen).

Conventions of the embedding:
* JavaScript objects become Lean structures; optional / possibly-`undefined`
  properties become `Option`.
* The route `params` object is a structure of the keys this file touches.
* React state updates and `history.push` calls are modelled by returning the
  new value alongside an `Option` describing the pushed route params
  (`none` when no push happens).
* The fetched record list may be `null` before resolution, hence
  `Option (List Record)`.
* External collaborators that this file merely calls
  (`filterSortAndPaginate`, `usePostActions`) are taken as parameters, so
  theorems quantify over every possible behaviour of the collaborator.
* JSX renderers are not values; each renderer is represented by the
  projection of the record data it reads.
-/

/-- Post types handled by this screen.  The repository constants
`TEMPLATE_POST_TYPE` and `TEMPLATE_PART_POST_TYPE` live in
`utils/constants` outside this slice; only their distinctness matters. -/
inductive PostType where
  | wpTemplate
  | wpTemplatePart
deriving DecidableEq, Repr

def TEMPLATE_POST_TYPE : PostType := PostType.wpTemplate

def TEMPLATE_PART_POST_TYPE : PostType := PostType.wpTemplatePart

/-- Layout identifiers; the repository constants `LAYOUT_GRID`,
`LAYOUT_TABLE`, `LAYOUT_LIST` live in `utils/constants` outside this slice. -/
inductive Layout where
  | grid
  | table
  | list
deriving DecidableEq, Repr

def LAYOUT_GRID : Layout := Layout.grid

def LAYOUT_TABLE : Layout := Layout.table

def LAYOUT_LIST : Layout := Layout.list

/-- Modelled from the spec: the `OPERATOR_IS_ANY` constant comes from the
repository's `utils/constants` module, which is not part of this slice.
The `defaultView` code path of this file builds the same filter with the
string literal `isAny`, which fixes the value. -/
def OPERATOR_IS_ANY : String := "isAny"

/-- Modelled from the spec: the `ENUMERATION_TYPE` constant comes from the
repository's `utils/constants` module, which is not part of this slice;
its value is irrelevant to the claims. -/
def ENUMERATION_TYPE : String := "enumeration"

/-- Modelled as the identity: `__` is the external i18n translation
function from the host framework. -/
def __ (s : String) : String := s

/-- A fetched template / template-part record.  `title?.rendered` is
flattened into one optional field. -/
structure Record where
  id : Nat
  type : PostType
  title_rendered : Option String
  description : Option String
  content_raw : String
  author_text : String
deriving DecidableEq, Repr

/-- Per-layout display configuration (`defaultConfigPerViewType` values). -/
structure LayoutConfig where
  primaryField : Option String
  mediaField : Option String
  columnFields : Option (List String)
deriving DecidableEq, Repr

def defaultConfigPerViewType : Layout → LayoutConfig
  | Layout.table =>
      { primaryField := some "title", mediaField := none, columnFields := none }
  | Layout.grid =>
      { primaryField := some "title", mediaField := some "preview",
        columnFields := some ["description"] }
  | Layout.list =>
      { primaryField := some "title", mediaField := some "preview",
        columnFields := none }

/-- One active filter object of the view (named `ViewFilter` here because
`Filter` is taken by the ambient library). -/
structure ViewFilter where
  field : String
  operator : String
  value : List String
deriving DecidableEq, Repr

/-- The sort part of the view. -/
structure SortCfg where
  field : String
  direction : String
deriving DecidableEq, Repr

/-- Transient view state of the data view. -/
structure View where
  type : Layout
  search : String
  page : Nat
  perPage : Nat
  sort : SortCfg
  hiddenFields : List String
  layout : LayoutConfig
  filters : List ViewFilter
deriving DecidableEq, Repr

def DEFAULT_VIEW : View :=
  { type := LAYOUT_GRID
    search := ""
    page := 1
    perPage := 20
    sort := { field := "title", direction := "asc" }
    hiddenFields := ["preview"]
    layout := defaultConfigPerViewType LAYOUT_GRID
    filters := [] }

/-- The route params keys this file reads or writes
(`activeView`, `layout`, `postId`).  `activeView` defaults to `all`
at the destructuring site. -/
structure RouteParams where
  activeView : Option String
  layout : Option Layout
  postId : Option Nat
deriving DecidableEq, Repr

/-- The `defaultView` useMemo body: start from `DEFAULT_VIEW`, take the
route's `layout` param as the type when present, the matching per-layout
config, and an author filter from `activeView` unless it is `all`. -/
def defaultView (params : RouteParams) : View :=
  let activeView := params.activeView.getD "all"
  let usedType := params.layout.getD DEFAULT_VIEW.type
  { DEFAULT_VIEW with
    type := usedType
    layout := defaultConfigPerViewType usedType
    filters :=
      if activeView ≠ "all" then
        [{ field := "author", operator := "isAny", value := [activeView] }]
      else [] }

/-- The effect reacting to `activeView` changes: functional `setView`
update replacing only the filters. -/
def applyActiveViewEffect (activeView : String) (currentView : View) : View :=
  { currentView with
    filters :=
      if activeView ≠ "all" then
        [{ field := "author", operator := OPERATOR_IS_ANY,
           value := [activeView] }]
      else [] }

/-- An element of the author filter enumeration. -/
structure AuthorOption where
  value : String
  label : String
deriving DecidableEq, Repr

def EMPTY_ARRAY : List AuthorOption := []

/-- One step of the `authorsSet` construction: `Set.add` keeps insertion
order and ignores elements already present. -/
def insertAuthor (s : List String) (t : Record) : List String :=
  if t.author_text ∈ s then s else s ++ [t.author_text]

/-- The `authors` useMemo body: `EMPTY_ARRAY` while records are null,
otherwise the insertion-ordered set of `author_text` values, each mapped
to a value and label pair. -/
def authors (records : Option (List Record)) : List AuthorOption :=
  match records with
  | none => EMPTY_ARRAY
  | some rs =>
      (rs.foldl insertAuthor []).map
        (fun author => { value := author, label := author })

/-- A column / field descriptor.  JSX `render` props are omitted (they are
modelled separately by the record projections they read); all other
properties of the source object literals are kept, optional when a
descriptor omits them. -/
structure FieldT where
  header : String
  id : String
  getValue : Option (Record → Option String) := none
  type : Option String := none
  elements : Option (List AuthorOption) := none
  minWidth : Option Nat := none
  maxWidth : Option Nat := none
  width : Option String := none
  enableSorting : Option Bool := none
  enableHiding : Option Bool := none
  enableGlobalSearch : Option Bool := none

/-- The `fields` useMemo body: preview and title always, description only
for the template post type, author always last. -/
def fields (postType : PostType) (authorsList : List AuthorOption)
    (_viewType : Layout) : List FieldT :=
  let previewField : FieldT :=
    { header := __ "Preview", id := "preview",
      minWidth := some 120, maxWidth := some 120,
      enableSorting := some false }
  let titleField : FieldT :=
    { header :=
        if postType = TEMPLATE_POST_TYPE then __ "Template"
        else __ "Template Part",
      id := "title",
      getValue := some (fun item => item.title_rendered),
      maxWidth := some 400, enableHiding := some false,
      enableGlobalSearch := some true }
  let descriptionField : FieldT :=
    { header := __ "Description", id := "description",
      maxWidth := some 400, minWidth := some 320,
      enableSorting := some false, enableGlobalSearch := some true }
  let authorField : FieldT :=
    { header := __ "Author", id := "author",
      getValue := some (fun item => some item.author_text),
      type := some ENUMERATION_TYPE, elements := some authorsList,
      width := some "1%" }
  (if postType = TEMPLATE_POST_TYPE then
    [previewField, titleField, descriptionField]
  else [previewField, titleField]) ++ [authorField]

def TEMPLATE_ACTIONS : List String :=
  [ "edit-post"
  , "reset-template"
  , "rename-template"
  , "view-post-revisions"
  , "delete-template" ]

/-- Pagination info produced by the external `filterSortAndPaginate`. -/
structure Pagination where
  totalItems : Nat
  totalPages : Nat
deriving DecidableEq, Repr

/-- Result shape of the external `filterSortAndPaginate` utility. -/
structure FSPResult where
  data : List Record
  paginationInfo : Pagination

/-- The props handed to the `DataViews` component (plus the fixed action-id
list handed to `usePostActions`, whose result is external). -/
structure DataViewsProps where
  paginationInfo : Pagination
  fields : List FieldT
  postActionIds : List String
  data : List Record
  isLoading : Bool
  view : View

/-- The render body of `PageTemplatesTemplateParts`, as a pure function of
the current state: derives authors and fields, applies the external
`filterSortAndPaginate` (abstract parameter `fsp`), and assembles the
`DataViews` props. -/
def pageTemplatesTemplateParts
    (fsp : Option (List Record) → View → List FieldT → FSPResult)
    (postType : PostType) (records : Option (List Record))
    (isLoadingData : Bool) (view : View) : DataViewsProps :=
  let authorsList := authors records
  let fieldsList := fields postType authorsList view.type
  let result := fsp records view fieldsList
  { paginationInfo := result.paginationInfo
    fields := fieldsList
    postActionIds := TEMPLATE_ACTIONS
    data := result.data
    isLoading := isLoadingData
    view := view }

/-- `onSelectionChange`: in list layout, push the current params with
`postId` set to the single selected item's id, or cleared otherwise;
in other layouts no push. -/
def onSelectionChange (view : View) (params : RouteParams)
    (items : List Record) : Option RouteParams :=
  if view.type = LAYOUT_LIST then
    some { params with
      postId := if items.length = 1 then items.head?.map Record.id else none }
  else none

/-- The params object pushed by the `edit-post` action handler. -/
structure EditPushParams where
  postId : Nat
  postType : PostType
  canvas : String
deriving DecidableEq, Repr

/-- `onActionPerformed`: only the `edit-post` action is handled here; it
pushes the first item's id and type with `canvas` set to `edit`. -/
def onActionPerformed (actionId : String) (items : List Record) :
    Option EditPushParams :=
  if actionId = "edit-post" then
    items.head?.map (fun post =>
      { postId := post.id, postType := post.type, canvas := "edit" })
  else none

/-- `onChangeView`: when the type changes, rebuild the new view's layout
config from `defaultConfigPerViewType` and push the params with the new
layout; otherwise store the new view as given with no push. -/
def onChangeView (view : View) (params : RouteParams) (newView : View) :
    View × Option RouteParams :=
  if newView.type ≠ view.type then
    ({ newView with layout := defaultConfigPerViewType newView.type },
     some { params with layout := some newView.type })
  else
    (newView, none)

/-- What the `Title` renderer reads from a record: the rendered title and,
for the link, the item's id and type. -/
def titleReads (item : Record) : Option String × Nat × PostType :=
  (item.title_rendered, item.id, item.type)

/-- What the `AuthorField` renderer reads from a record: its type and id
(handed to the `useAddedBy` hook) and nothing else of the record. -/
def authorFieldReads (item : Record) : PostType × Nat :=
  (item.type, item.id)

/-- What the `Preview` renderer reads from a record: the raw content, the
link target id and type, and the title for the aria label. -/
def previewReads (item : Record) :
    String × Nat × PostType × Option String :=
  (item.content_raw, item.id, item.type, item.title_rendered)

/-- What the description renderer reads from a record. -/
def descriptionReads (item : Record) : Option String :=
  item.description

/-- The whole screen in state-passing form over the fetched record store:
every record-touching operation of the file (render body, `getValue`
accessors, renderer reads, selection and action handlers) is run and its
outputs returned, together with the record store as the operations leave
it.  A property write to a record would surface here as a changed store. -/
def screenStep (fsp : Option (List Record) → View → List FieldT → FSPResult)
    (postType : PostType) (params : RouteParams) (view : View)
    (selectedItems : List Record) (actionId : String)
    (actionItems : List Record) (isLoading : Bool)
    (store : Option (List Record)) :
    (DataViewsProps × Option RouteParams × Option EditPushParams
      × List (List (Option String))
      × List (Option String × Nat × PostType)
      × List (PostType × Nat)
      × List (String × Nat × PostType × Option String)
      × List (Option String))
    × Option (List Record) :=
  let props := pageTemplatesTemplateParts fsp postType store isLoading view
  let getValues := (store.getD []).map (fun r =>
    props.fields.filterMap (fun f => f.getValue.map (fun g => g r)))
  let titleR := (store.getD []).map titleReads
  let authorR := (store.getD []).map authorFieldReads
  let previewR := (store.getD []).map previewReads
  let descR := (store.getD []).map descriptionReads
  let sel := onSelectionChange view params selectedItems
  let act := onActionPerformed actionId actionItems
  ((props, sel, act, getValues, titleR, authorR, previewR, descR), store)

/-! ## Helper lemmas -/

lemma mem_insertAuthor (s : List String) (t : Record) (a : String) :
    a ∈ insertAuthor s t ↔ a ∈ s ∨ a = t.author_text := by
  by_cases h : t.author_text ∈ s
  · simp only [insertAuthor, if_pos h]
    constructor
    · exact Or.inl
    · rintro (h1 | rfl)
      · exact h1
      · exact h
  · simp [insertAuthor, if_neg h, List.mem_append]

lemma nodup_insertAuthor (s : List String) (t : Record) (h : s.Nodup) :
    (insertAuthor s t).Nodup := by
  by_cases hm : t.author_text ∈ s
  · simpa [insertAuthor, if_pos hm] using h
  · simp [insertAuthor, if_neg hm, List.nodup_append, h, hm]

lemma mem_foldl_insertAuthor (records : List Record) (s : List String)
    (a : String) :
    a ∈ records.foldl insertAuthor s ↔
      a ∈ s ∨ ∃ t ∈ records, t.author_text = a := by
  induction records generalizing s with
  | nil => simp
  | cons t ts ih =>
      simp only [List.foldl_cons, ih, mem_insertAuthor, List.mem_cons]
      constructor
      · rintro ((h | rfl) | ⟨u, hu, rfl⟩)
        · exact Or.inl h
        · exact Or.inr ⟨t, Or.inl rfl, rfl⟩
        · exact Or.inr ⟨u, Or.inr hu, rfl⟩
      · rintro (h | ⟨u, (rfl | hu), rfl⟩)
        · exact Or.inl (Or.inl h)
        · exact Or.inl (Or.inr rfl)
        · exact Or.inr ⟨u, hu, rfl⟩

lemma nodup_foldl_insertAuthor (records : List Record) (s : List String)
    (h : s.Nodup) : (records.foldl insertAuthor s).Nodup := by
  induction records generalizing s with
  | nil => exact h
  | cons t ts ih => exact ih _ (nodup_insertAuthor _ _ h)

lemma authors_map_value (rs : List Record) :
    (authors (some rs)).map AuthorOption.value = rs.foldl insertAuthor [] := by
  have hcomp :
      (AuthorOption.value ∘ fun author => AuthorOption.mk author author) =
        fun a => a := rfl
  simp only [authors, List.map_map, hcomp]
  exact List.map_id' _

lemma fields_map_id (postType : PostType) (authorsList : List AuthorOption)
    (viewType : Layout) :
    (fields postType authorsList viewType).map FieldT.id =
      if postType = TEMPLATE_POST_TYPE then
        ["preview", "title", "description", "author"]
      else ["preview", "title", "author"] := by
  cases postType <;> rfl

/-! ## Claim theorems -/

/-- Claim C1: both the initial default view and the view produced by the
effect reacting to activeView changes carry exactly one author filter with
operator `OPERATOR_IS_ANY` and the active view as its only value when the
active view differs from `all`, and an empty filter list when the active
view is `all`. -/
theorem template_filters_reflect_active_view (params : RouteParams)
    (av : String) (cur : View) :
    (defaultView params).filters =
      (if params.activeView.getD "all" = "all" then []
       else [{ field := "author", operator := OPERATOR_IS_ANY,
               value := [params.activeView.getD "all"] }]) ∧
    (applyActiveViewEffect av cur).filters =
      (if av = "all" then []
       else [{ field := "author", operator := OPERATOR_IS_ANY,
               value := [av] }]) := by
  constructor
  · by_cases h : params.activeView.getD "all" = "all" <;>
      simp [defaultView, OPERATOR_IS_ANY, h]
  · by_cases h : av = "all" <;> simp [applyActiveViewEffect, h]

/-- Claim C2: for every behaviour of the imported `filterSortAndPaginate`
utility, the data and paginationInfo handed to the data-view component are
exactly that utility's result on the records, view, and derived fields;
the file adds no filtering, sorting or pagination of its own. -/
theorem data_pagination_delegated_to_fsp
    (fsp : Option (List Record) → View → List FieldT → FSPResult)
    (postType : PostType) (records : Option (List Record))
    (isLoadingData : Bool) (view : View) :
    (pageTemplatesTemplateParts fsp postType records isLoadingData
        view).data =
      (fsp records view (fields postType (authors records) view.type)).data ∧
    (pageTemplatesTemplateParts fsp postType records isLoadingData
        view).paginationInfo =
      (fsp records view
        (fields postType (authors records) view.type)).paginationInfo :=
  ⟨rfl, rfl⟩

/-- Claim C3: for every postType, author list and view type, the ids of
the derived field descriptors are pairwise distinct. -/
theorem field_ids_nodup (postType : PostType)
    (authorsList : List AuthorOption) (viewType : Layout) :
    ((fields postType authorsList viewType).map FieldT.id).Nodup := by
  rw [fields_map_id]
  by_cases h : postType = TEMPLATE_POST_TYPE <;> simp [h]

/-- Claim C4: the initial view's type is the route's layout param when
present and grid otherwise, its per-layout config is the default config
for that type, and search, page, perPage, sort and hiddenFields are the
fixed `DEFAULT_VIEW` values. -/
theorem default_view_from_route (params : RouteParams) :
    (defaultView params).type = params.layout.getD LAYOUT_GRID ∧
    (defaultView params).layout =
      defaultConfigPerViewType (params.layout.getD LAYOUT_GRID) ∧
    (defaultView params).search = DEFAULT_VIEW.search ∧
    (defaultView params).page = DEFAULT_VIEW.page ∧
    (defaultView params).perPage = DEFAULT_VIEW.perPage ∧
    (defaultView params).sort = DEFAULT_VIEW.sort ∧
    (defaultView params).hiddenFields = DEFAULT_VIEW.hiddenFields ∧
    DEFAULT_VIEW.search = "" ∧ DEFAULT_VIEW.page = 1 ∧
    DEFAULT_VIEW.perPage = 20 ∧
    DEFAULT_VIEW.sort = { field := "title", direction := "asc" } ∧
    DEFAULT_VIEW.hiddenFields = ["preview"] ∧
    DEFAULT_VIEW.type = LAYOUT_GRID :=
  ⟨rfl, rfl, rfl, rfl, rfl, rfl, rfl, rfl, rfl, rfl, rfl, rfl, rfl⟩

/-- Claim C5: the fixed action-id list handed to the post-actions hook
contains the edit-post, rename-template, delete-template and
view-post-revisions actions, and the screen passes exactly
`TEMPLATE_ACTIONS` to that hook. -/
theorem template_actions_wired :
    "edit-post" ∈ TEMPLATE_ACTIONS ∧
    "rename-template" ∈ TEMPLATE_ACTIONS ∧
    "delete-template" ∈ TEMPLATE_ACTIONS ∧
    "view-post-revisions" ∈ TEMPLATE_ACTIONS ∧
    ∀ (fsp : Option (List Record) → View → List FieldT → FSPResult)
      (postType : PostType) (records : Option (List Record))
      (isLoadingData : Bool) (view : View),
      (pageTemplatesTemplateParts fsp postType records isLoadingData
        view).postActionIds = TEMPLATE_ACTIONS := by
  refine ⟨by decide, by decide, by decide, by decide, ?_⟩
  intro fsp postType records isLoadingData view
  rfl

/-- Claim C6: for every postType, author list and view type, the derived
field list contains descriptors with ids title, author and preview. -/
theorem title_author_preview_fields_present (postType : PostType)
    (authorsList : List AuthorOption) (viewType : Layout) :
    "title" ∈ (fields postType authorsList viewType).map FieldT.id ∧
    "author" ∈ (fields postType authorsList viewType).map FieldT.id ∧
    "preview" ∈ (fields postType authorsList viewType).map FieldT.id := by
  simp only [fields_map_id]
  by_cases h : postType = TEMPLATE_POST_TYPE <;> simp [h]

/-- Claim C7: the screen treats the fetched records as read-only: running
every record-touching operation of the file (render body, getValue
accessors, renderer reads, selection and action handlers) in
state-passing form leaves the record store unchanged. -/
theorem records_read_only
    (fsp : Option (List Record) → View → List FieldT → FSPResult)
    (postType : PostType) (params : RouteParams) (view : View)
    (selectedItems : List Record) (actionId : String)
    (actionItems : List Record) (isLoading : Bool)
    (store : Option (List Record)) :
    (screenStep fsp postType params view selectedItems actionId actionItems
      isLoading store).snd = store :=
  rfl

/-- Claim C8: the derived field list contains a descriptor with id
description exactly when the postType is the template post type. -/
theorem description_field_iff_template (postType : PostType)
    (authorsList : List AuthorOption) (viewType : Layout) :
    ("description" ∈ (fields postType authorsList viewType).map FieldT.id) ↔
      postType = TEMPLATE_POST_TYPE := by
  simp only [fields_map_id]
  by_cases h : postType = TEMPLATE_POST_TYPE <;> simp [h]

/-- Claim C9: a view change whose type differs from the current one stores
the new view with its layout config replaced by the default config for the
new type and pushes the params with the layout updated to the new type; a
view change with the same type stores the new view as given and performs
no history push. -/
theorem on_change_view_behavior (view : View) (params : RouteParams)
    (newView : View) :
    onChangeView view params newView =
      if newView.type = view.type then (newView, none)
      else ({ newView with layout := defaultConfigPerViewType newView.type },
            some { params with layout := some newView.type }) := by
  by_cases h : newView.type = view.type <;> simp [onChangeView, h]

/-- Claim C10: the authors enumeration is empty while no records are
fetched, has pairwise distinct values, its values are exactly the
author_text values occurring in the records, and every element's label
equals its value. -/
theorem authors_enumeration_faithful (rs : List Record) :
    authors none = [] ∧
    ((authors (some rs)).map AuthorOption.value).Nodup ∧
    ((authors (some rs)).map AuthorOption.value).toFinset =
      (rs.map Record.author_text).toFinset ∧
    (authors (some rs)).map AuthorOption.value =
      (authors (some rs)).map AuthorOption.label := by
  refine ⟨rfl, ?_, ?_, ?_⟩
  · rw [authors_map_value]
    exact nodup_foldl_insertAuthor rs [] List.nodup_nil
  · rw [authors_map_value]
    ext a
    simp [List.mem_toFinset, mem_foldl_insertAuthor, List.mem_map]
  · have hval :
        (AuthorOption.value ∘ fun author => AuthorOption.mk author author) =
          fun a => a := rfl
    have hlab :
        (AuthorOption.label ∘ fun author => AuthorOption.mk author author) =
          fun a => a := rfl
    simp only [authors, List.map_map, hval, hlab]
